import Mathlib

/-!
Shallow embedding of the MCP agent request-orchestration code
(src/agent/mcp_agent.py, llm_interface.py, connection_manager.py,
config_manager.py, utils.py).

Modelling conventions:
* Python JSON-like values (results of json.loads, YAML loading, task/verdict
  dicts) are the inductive `JValue`; numbers are exact rationals, a stand-in
  for Python int/float (no claim performs float arithmetic).
* Python strings are Lean `String` where only scalar values occur; where lone
  UTF-16 surrogate code units matter (utils.safe_str), strings are modelled as
  raw code-point sequences `PyStr`, since a Lean `Char` cannot hold a
  surrogate.
* Fallible Python code (statements that can raise) returns `Except PyErr`.
  Exception messages are kept close to the source but no theorem depends on
  their exact text.
* The LLM backend, the JSON/regex parsing of its response text, the YAML
  reader, and the MCP transport are external collaborators; their outcomes are
  oracle inputs (`ClassifyBackend`, `PlanBackend`, `InterpretBackend`,
  transport outcome functions).
-/

/-- Python JSON-like values. -/
inductive JValue : Type
  | null : JValue
  | bool (b : Bool) : JValue
  | num (q : ℚ) : JValue
  | str (s : String) : JValue
  | arr (xs : List JValue) : JValue
  | obj (fields : List (String × JValue)) : JValue

/-- Python `v == s` for a string literal `s`: true exactly when `v` is that
string (Python equality across types is False). -/
def jEqStr (v : JValue) (s : String) : Bool :=
  match v with
  | .str s' => s' = s
  | _ => false

/-- Python exception values (only the classes the embedded code can raise). -/
inductive PyErr : Type
  | attributeError (msg : String)
  | typeError (msg : String)
  | valueError (msg : String)
  | runtimeError (msg : String)
  | keyError (msg : String)
  deriving DecidableEq

/-- The message text of an exception, Python `str(e)`. -/
def pyErrMsg : PyErr → String
  | .attributeError m => m
  | .typeError m => m
  | .valueError m => m
  | .runtimeError m => m
  | .keyError m => m

/-- A Python dict with string keys, as an association list (first match wins;
json.loads and the embedded code never produce duplicate keys). -/
abbrev PyDict := List (String × JValue)

/-- Dict lookup (`d[k]` when present, else `none`). -/
def dictLookup (d : PyDict) (k : String) : Option JValue :=
  match d with
  | [] => none
  | (k', v) :: rest => if k' = k then some v else dictLookup rest k

/-- Python `d.get(k, default)` on a dict. -/
def dictGetD (d : PyDict) (k : String) (dflt : JValue) : JValue :=
  (dictLookup d k).getD dflt

/-- Python `d[k] = v`: replace the existing binding or append a new one. -/
def dictSet (d : PyDict) (k : String) (v : JValue) : PyDict :=
  match d with
  | [] => [(k, v)]
  | (k', v') :: rest => if k' = k then (k', v) :: rest else (k', v') :: dictSet rest k v

/-- Python `x.get(k, default)` on an arbitrary value: only dicts have `.get`;
anything else raises AttributeError. -/
def pyGet (v : JValue) (k : String) (dflt : JValue) : Except PyErr JValue :=
  match v with
  | .obj fs => .ok (dictGetD fs k dflt)
  | _ => .error (.attributeError ("object has no attribute get: " ++ k))

example : pyGet (.obj [("a", .num 1)]) "a" .null = .ok (.num 1) := rfl
example : pyGet (.num 1) "a" .null = .error (.attributeError "object has no attribute get: a") := rfl

/-- Recursive renderer for container interiors (see `pyStrOf`). -/
def pyStrOfRec : JValue → String
  | .null => "None"
  | .bool true => "True"
  | .bool false => "False"
  | .num q => toString q
  | .str s => s
  | .arr xs => "[" ++ String.intercalate ", " (xs.attach.map (fun x => pyStrOfRec x.1)) ++ "]"
  | .obj fs => "\x7b" ++ String.intercalate ", "
      (fs.attach.map (fun kv => kv.1.1 ++ ": " ++ pyStrOfRec kv.1.2)) ++ "\x7d"
decreasing_by
  · have h := List.sizeOf_lt_of_mem x.2
    simp only [JValue.arr.sizeOf_spec]
    omega
  · have h := List.sizeOf_lt_of_mem kv.2
    have h2 : sizeOf kv.1.2 < sizeOf kv.1 := by
      rcases kv.1 with ⟨a, b⟩
      simp
    simp only [JValue.obj.sizeOf_spec]
    omega

/-- Python `str(v)` rendering of a JSON-like value, used in f-strings.
Approximate for containers and floats (Lean shows rationals); no claim
depends on the rendering of a non-string value. -/
def pyStrOf (v : JValue) : String :=
  match v with
  | .null => "None"
  | .bool true => "True"
  | .bool false => "False"
  | .num q => toString q
  | .str s => s
  | .arr xs => pyStrOfRec (.arr xs)
  | .obj fs => pyStrOfRec (.obj fs)

/-- Python `len(v)`: defined for str (code points), list and dict; raises
TypeError otherwise. -/
def pyLen : JValue → Except PyErr Nat
  | .str s => .ok s.length
  | .arr xs => .ok xs.length
  | .obj fs => .ok fs.length
  | _ => .error (.typeError "object has no len")

/-- Python `needle in hay` for a string needle: list membership, dict key
membership, substring test on strings; TypeError otherwise. -/
def pyIn (needle : String) (hay : JValue) : Except PyErr Bool :=
  match hay with
  | .arr xs => .ok (xs.any (fun x => jEqStr x needle))
  | .obj fs => .ok (fs.any (fun kv => kv.1 == needle))
  | .str s => .ok (needle == "" || (s.splitOn needle).length > 1)
  | _ => .error (.typeError "argument is not iterable")

/-- Python `v[k]` subscription with a string key: KeyError on a dict without
the key, TypeError on non-dicts. -/
def jIndex (v : JValue) (k : String) : Except PyErr JValue :=
  match v with
  | .obj fs =>
    match dictLookup fs k with
    | some x => .ok x
    | none => .error (.keyError k)
  | .str _ => .error (.typeError "string indices must be integers")
  | .arr _ => .error (.typeError "list indices must be integers")
  | _ => .error (.typeError "object is not subscriptable")

/-- Python truthiness of a JSON-like value. -/
def pyTruthy : JValue → Bool
  | .null => false
  | .bool b => b
  | .num q => !(q == 0)
  | .str s => !(s == "")
  | .arr xs => !xs.isEmpty
  | .obj fs => !fs.isEmpty

/-- A Python string as its raw sequence of code points. Lean `Char` only
holds Unicode scalar values, so lone UTF-16 surrogates (U+D800..U+DFFF),
which a Python str can contain, are modelled at the code-point level. -/
abbrev PyStr := List Nat

/-- Embed a surrogate-free Lean string as a code point sequence. -/
def strToPy (s : String) : PyStr := s.toList.map Char.toNat

/-- Code point in the UTF-16 surrogate range U+D800..U+DFFF. -/
def isSurrogate (c : Nat) : Bool := 0xD800 ≤ c && c ≤ 0xDFFF

/-- utils.safe_str on a string argument: each character in the surrogate
range becomes the placeholder character U+003F, everything else is kept.
This is the general branch of the source; the win32-only cp932 round-trip
that precedes it is a platform codec path (external codec, only reachable
when sys.platform == "win32") and is not part of the portable behavior
modelled here. -/
def safe_str (text : PyStr) : PyStr :=
  text.map (fun char => if !(isSurrogate char) then char else 0x3F)

/-- utils.safe_str restricted to Lean strings (no representable surrogate, so
the replacement branch is vacuous; kept in the shape of the source). -/
def safe_str_s (s : String) : String :=
  String.mk (s.toList.map (fun char =>
    if !(0xD800 ≤ char.toNat && char.toNat ≤ 0xDFFF) then char else '?'))

/-- Conversation roles; the source stores the strings "user"/"assistant". -/
inductive Role : Type
  | user : Role
  | assistant : Role
  deriving DecidableEq

/-- One entry of MCPAgent.conversation_history. The content is the appended
value: the user query string, or whatever value the assistant branch
produced (a non-string can be appended when the classifier returned a
non-string response field). -/
structure Turn where
  role : Role
  content : JValue

/-- The display name used in context lines. -/
def roleName : Role → String
  | .user => "User"
  | .assistant => "Assistant"

/-- One line of MCPAgent._get_recent_context:
content[:150] + "..." if len(content) > 150 else content, rendered through
the f-string. len raises on numbers; list + str raises; dict[:150] raises. -/
def contextLine (role : Role) (content : JValue) : Except PyErr String := do
  let n ← pyLen content
  if n > 150 then
    match content with
    | .str s => pure (roleName role ++ ": " ++ (s.take 150 ++ "..."))
    | _ => Except.error (.typeError "unsupported slice or concatenation")
  else
    match content with
    | .str s => pure (roleName role ++ ": " ++ s)
    | _ => pure (roleName role ++ ": " ++ pyStrOf content)

/-- MCPAgent._get_recent_context. `max_entries` defaults to 10 and the single
call site uses the default; the configured conversation.context_limit is
never passed. `history[-m:]` is the whole list when m = 0. -/
def get_recent_context (history : List Turn) (max_entries : Nat := 10) :
    Except PyErr String := do
  let recent := if max_entries = 0 then history
                else history.drop (history.length - max_entries)
  let lines ← recent.mapM (fun entry => contextLine entry.role entry.content)
  pure (String.intercalate "\n" lines)

/-- One entry of ConnectionManager.tools_info: owning server, JSON schema of
the parameters, human description. -/
structure ToolEntry where
  server : String
  schema : JValue
  description : String

/-- One parameter line of ConnectionManager.format_tools_for_llm. -/
def format_param (required : JValue) (param_name : String) (param_info : JValue) :
    Except PyErr String := do
  let param_type ← pyGet param_info "type" (.str "any")
  let is_required ← pyIn param_name required
  let req_text := if is_required then "必須" else "オプション"
  let param_desc ← pyGet param_info "description" (.str "")
  pure ("  - " ++ param_name ++ " (" ++ pyStrOf param_type ++ ", " ++ req_text
        ++ "): " ++ pyStrOf param_desc)

/-- One tool block of ConnectionManager.format_tools_for_llm. -/
def format_tool (tool_name : String) (info : ToolEntry) : Except PyErr String := do
  let properties ← pyGet info.schema "properties" (.obj [])
  let required ← pyGet info.schema "required" (.arr [])
  let params_info ←
    match properties with
    | .obj fs => fs.mapM (fun kv => format_param required kv.1 kv.2)
    | _ => Except.error (.attributeError "object has no attribute items")
  let params_text := if params_info.isEmpty then "  パラメータなし"
                     else String.intercalate "\n" params_info
  pure (tool_name ++ " (サーバー: " ++ info.server ++ "):\n  説明: "
        ++ info.description ++ "\n  パラメータ:\n" ++ params_text)

/-- ConnectionManager.format_tools_for_llm over the registry in insertion
order. -/
def format_tools_for_llm (tools_info : List (String × ToolEntry)) :
    Except PyErr String := do
  let blocks ← tools_info.mapM (fun kv => format_tool kv.1 kv.2)
  pure (String.intercalate "\n\n" blocks)

/-! ### Configuration (config_manager.py)

The dataclass fields hold whatever value the YAML supplied (Python
dataclasses do not validate), so every field is a `JValue`; the defaults
are the dataclass defaults. Floats appear as exact rationals. -/

structure DisplayConfig where
  ui_mode : JValue := .str "basic"
  show_timing : JValue := .bool true
  show_thinking : JValue := .bool true

structure RetryStrategyConfig where
  max_retries : JValue := .num 3
  progressive_temperature : JValue := .bool true
  initial_temperature : JValue := .num (1/10)
  temperature_increment : JValue := .num (1/5)

structure ExecutionConfig where
  max_retries : JValue := .num 3
  timeout_seconds : JValue := .num 30
  fallback_enabled : JValue := .bool false
  max_tasks : JValue := .num 10
  retry_strategy : RetryStrategyConfig := {}

structure LLMConfig where
  model : JValue := .str "gpt-4o-mini"
  temperature : JValue := .num (1/5)
  force_json : JValue := .bool true
  reasoning_effort : JValue := .str "minimal"
  max_completion_tokens : JValue := .num 5000

structure InterruptHandlingConfig where
  timeout : JValue := .num 10
  non_interactive_default : JValue := .str "abort"

structure ConversationConfig where
  context_limit : JValue := .num 10
  max_history : JValue := .num 50

structure ErrorHandlingConfig where
  auto_correct_params : JValue := .bool true
  retry_interval : JValue := .num 1

structure DevelopmentConfig where
  verbose : JValue := .bool true
  log_level : JValue := .str "INFO"
  show_api_calls : JValue := .bool true

structure ResultDisplayConfig where
  max_result_length : JValue := .num 1000
  show_truncated_info : JValue := .bool true

structure Config where
  display : DisplayConfig := {}
  execution : ExecutionConfig := {}
  llm : LLMConfig := {}
  conversation : ConversationConfig := {}
  error_handling : ErrorHandlingConfig := {}
  development : DevelopmentConfig := {}
  result_display : ResultDisplayConfig := {}
  interrupt_handling : InterruptHandlingConfig := {}

/-- The built-in default configuration, Python `Config()`. -/
def Config.default : Config := {}

/-- The `if "display" in data` section of ConfigManager._create_config_from_dict. -/
def parse_display_section (data : JValue) (cfg : Config) : Except PyErr Config := do
  let has ← pyIn "display" data
  if has then do
    let dd ← jIndex data "display"
    let ui ← pyGet dd "ui_mode" (.str "basic")
    let ti ← pyGet dd "show_timing" (.bool true)
    let th ← pyGet dd "show_thinking" (.bool true)
    pure { cfg with display := { ui_mode := ui, show_timing := ti, show_thinking := th } }
  else pure cfg

/-- The `if "execution" in data` section, including the nested retry_strategy. -/
def parse_execution_section (data : JValue) (cfg : Config) : Except PyErr Config := do
  let has ← pyIn "execution" data
  if has then do
    let ed ← jIndex data "execution"
    let rd ← pyGet ed "retry_strategy" (.obj [])
    let mr ← pyGet ed "max_retries" (.num 3)
    let ts ← pyGet ed "timeout_seconds" (.num 30)
    let fe ← pyGet ed "fallback_enabled" (.bool false)
    let mt ← pyGet ed "max_tasks" (.num 10)
    let rmr ← pyGet rd "max_retries" (.num 3)
    let rpt ← pyGet rd "progressive_temperature" (.bool true)
    let rit ← pyGet rd "initial_temperature" (.num (1/10))
    let rti ← pyGet rd "temperature_increment" (.num (1/5))
    pure { cfg with execution :=
      { max_retries := mr, timeout_seconds := ts, fallback_enabled := fe,
        max_tasks := mt,
        retry_strategy :=
          { max_retries := rmr, progressive_temperature := rpt,
            initial_temperature := rit, temperature_increment := rti } } }
  else pure cfg

/-- The `if "llm" in data` section. -/
def parse_llm_section (data : JValue) (cfg : Config) : Except PyErr Config := do
  let has ← pyIn "llm" data
  if has then do
    let ld ← jIndex data "llm"
    let md ← pyGet ld "model" (.str "gpt-4o-mini")
    let tp ← pyGet ld "temperature" (.num (1/5))
    let fj ← pyGet ld "force_json" (.bool true)
    let re ← pyGet ld "reasoning_effort" (.str "minimal")
    let mc ← pyGet ld "max_completion_tokens" (.num 5000)
    pure { cfg with llm :=
      { model := md, temperature := tp, force_json := fj,
        reasoning_effort := re, max_completion_tokens := mc } }
  else pure cfg

/-- The `if "conversation" in data` section. -/
def parse_conversation_section (data : JValue) (cfg : Config) : Except PyErr Config := do
  let has ← pyIn "conversation" data
  if has then do
    let cd ← jIndex data "conversation"
    let cl ← pyGet cd "context_limit" (.num 10)
    let mh ← pyGet cd "max_history" (.num 50)
    pure { cfg with conversation := { context_limit := cl, max_history := mh } }
  else pure cfg

/-- The `if "error_handling" in data` section. -/
def parse_error_handling_section (data : JValue) (cfg : Config) : Except PyErr Config := do
  let has ← pyIn "error_handling" data
  if has then do
    let ed ← jIndex data "error_handling"
    let ac ← pyGet ed "auto_correct_params" (.bool true)
    let ri ← pyGet ed "retry_interval" (.num 1)
    pure { cfg with error_handling := { auto_correct_params := ac, retry_interval := ri } }
  else pure cfg

/-- The `if "development" in data` section. -/
def parse_development_section (data : JValue) (cfg : Config) : Except PyErr Config := do
  let has ← pyIn "development" data
  if has then do
    let dd ← jIndex data "development"
    let vb ← pyGet dd "verbose" (.bool true)
    let ll ← pyGet dd "log_level" (.str "INFO")
    let sa ← pyGet dd "show_api_calls" (.bool true)
    pure { cfg with development := { verbose := vb, log_level := ll, show_api_calls := sa } }
  else pure cfg

/-- The `if "result_display" in data` section. -/
def parse_result_display_section (data : JValue) (cfg : Config) : Except PyErr Config := do
  let has ← pyIn "result_display" data
  if has then do
    let rd ← jIndex data "result_display"
    let ml ← pyGet rd "max_result_length" (.num 1000)
    let st ← pyGet rd "show_truncated_info" (.bool true)
    pure { cfg with result_display := { max_result_length := ml, show_truncated_info := st } }
  else pure cfg

/-- The `if "interrupt_handling" in data` section. -/
def parse_interrupt_handling_section (data : JValue) (cfg : Config) : Except PyErr Config := do
  let has ← pyIn "interrupt_handling" data
  if has then do
    let idd ← jIndex data "interrupt_handling"
    let tm ← pyGet idd "timeout" (.num 10)
    let nd ← pyGet idd "non_interactive_default" (.str "abort")
    pure { cfg with interrupt_handling := { timeout := tm, non_interactive_default := nd } }
  else pure cfg

/-- ConfigManager._create_config_from_dict: start from Config() and apply each
section of the YAML mapping in source order; any raise propagates (and is
wrapped by `ConfigManager.load`). -/
def create_config_from_dict (data : JValue) : Except PyErr Config := do
  let cfg : Config := {}
  let cfg ← parse_display_section data cfg
  let cfg ← parse_execution_section data cfg
  let cfg ← parse_llm_section data cfg
  let cfg ← parse_conversation_section data cfg
  let cfg ← parse_error_handling_section data cfg
  let cfg ← parse_development_section data cfg
  let cfg ← parse_result_display_section data cfg
  let cfg ← parse_interrupt_handling_section data cfg
  pure cfg

/-- ConfigManager.load. The filesystem and the YAML reader are external:
`fileExists` models os.path.exists(config_path), and `readParse` the joint
outcome of open + yaml.safe_load (error message on failure, loaded value on
success). `yaml_data or empty-dict` replaces a falsy load result. All raises
inside the try block surface as the ValueError wrapping below. -/
def ConfigManager.load (fileExists : Bool) (readParse : Except String JValue) :
    Except String Config :=
  if !fileExists then .ok Config.default
  else
    match readParse with
    | .error e => .error ("設定ファイル読み込みエラー: " ++ e)
    | .ok yaml_data =>
      let data := if pyTruthy yaml_data then yaml_data else .obj []
      match create_config_from_dict data with
      | .ok c => .ok c
      | .error pe => .error ("設定ファイル読み込みエラー: " ++ pyErrMsg pe)

/-! ### Connection manager (connection_manager.py) -/

/-- Association-list lookup for the tool registry. -/
def toolLookup (d : List (String × ToolEntry)) (k : String) : Option ToolEntry :=
  match d with
  | [] => none
  | (k', v) :: rest => if k' = k then some v else toolLookup rest k

/-- `self.tools_info[name] = entry`: replace the existing binding or append. -/
def toolSet (d : List (String × ToolEntry)) (k : String) (v : ToolEntry) :
    List (String × ToolEntry) :=
  match d with
  | [] => [(k, v)]
  | (k', v') :: rest => if k' = k then (k', v) :: rest else (k', v') :: toolSet rest k v

/-- ConnectionManager mutable state: connected client names (dict keys, in
insertion order) and the tool registry. -/
structure CMState where
  clients : List String
  tools_info : List (String × ToolEntry)
  initialized : Bool

/-- A tool descriptor as returned by the transport list_tools; inputSchema
and description are optional attributes (hasattr checks in the source). -/
structure ToolDesc where
  name : String
  inputSchema : Option JValue
  description : Option String

/-- One registry insertion of ConnectionManager._collect_tools_info: a
discovered tool is stored under its name (dict assignment, last write
wins), owned by the queried server; missing inputSchema or description
attributes default (hasattr checks in the source). On a list_tools failure
the loop logs and continues, leaving the registry untouched for that
client. -/
def register_tool (server_name : String) (acc : List (String × ToolEntry))
    (tool : ToolDesc) : List (String × ToolEntry) :=
  toolSet acc tool.name
    { server := server_name, schema := tool.inputSchema.getD (.obj []),
      description := tool.description.getD "" }

/-- The per-client iteration of ConnectionManager._collect_tools_info over
every connected client, starting from the current registry. -/
def collect_tools_info (clients : List String)
    (listTools : String → Except String (List ToolDesc))
    (tools_info : List (String × ToolEntry)) : List (String × ToolEntry) :=
  clients.foldl (fun acc server_name =>
    match listTools server_name with
    | .error _ => acc
    | .ok tools => tools.foldl (register_tool server_name) acc) tools_info

/-- result.content items of one transport call: each item optionally has a
text attribute (a Python str that may contain lone surrogates). -/
abbrev ToolItems := List (Option PyStr)

/-- ConnectionManager.call_tool. Returns the result (or the raised
exception) and whether the remote transport call was performed. Unknown tool
and not-connected server fail fast before any transport activity; an
unhashable tool name raises from the membership test itself. On transport
success every text item is sanitized with safe_str before being returned. -/
def call_tool (cm : CMState) (tool_name : JValue) (_arguments : JValue)
    (transport : Except String ToolItems) : (Except PyErr ToolItems) × Bool :=
  match tool_name with
  | .arr _ => (.error (.typeError "unhashable type"), false)
  | .obj _ => (.error (.typeError "unhashable type"), false)
  | _ =>
    let found := match tool_name with
      | .str s => toolLookup cm.tools_info s
      | _ => none
    match found with
    | none => (.error (.valueError ("未知のツール: " ++ pyStrOf tool_name)), false)
    | some entry =>
      if entry.server ∈ cm.clients then
        match transport with
        | .error e =>
          (.error (.runtimeError ("ツール実行エラー (" ++ pyStrOf tool_name ++ "): "
            ++ safe_str_s e)), true)
        | .ok items => (.ok (items.map (Option.map safe_str)), true)
      else
        (.error (.valueError ("サーバー " ++ entry.server ++ " に接続されていません")), false)

/-- ConnectionManager.close: best-effort close of every client (a close
failure is logged and ignored, modelled by discarding the close outcomes),
then clients.clear() and the initialized flag reset. tools_info is not
touched. -/
def CMState.close (cm : CMState) (closeOutcome : String → Except String Unit) : CMState :=
  let _ := cm.clients.map closeOutcome
  { cm with clients := [], initialized := false }

/-- ConnectionManager.get_tool_info: resolve a tool name in the registry. -/
def get_tool_info (cm : CMState) (tool_name : String) : Option ToolEntry :=
  toolLookup cm.tools_info tool_name

/-! ### LLM gateway (llm_interface.py)

Each operation is one backend exchange; the backend call and the parsing of
its response text are external, so each operation consumes the joint outcome
as an oracle value. -/

/-- Outcome of the classification exchange in determine_execution_type:
the backend call raised, or json.loads raised on the response text, or the
parsed JSON payload. -/
inductive ClassifyBackend : Type
  | err (msg : String) : ClassifyBackend
  | parseFail : ClassifyBackend
  | value (v : JValue) : ClassifyBackend

/-- The dict returned from the except-branch of determine_execution_type
(a backend error, a parse failure, and the AttributeError from calling .get
on a non-dict payload all land here). -/
def default_classification : PyDict :=
  [("type", .str "TOOL"), ("reason", .str "判定エラーによりデフォルト選択")]

/-- LLMInterface.determine_execution_type: always returns a dict, never
raises. A parsed dict keeps all its fields; when its type is neither NO_TOOL
nor CLARIFICATION it is overwritten with TOOL. Every failure path returns
the fixed default dict. -/
def determine_execution_type : ClassifyBackend → PyDict
  | .err _ => default_classification
  | .parseFail => default_classification
  | .value v =>
    match v with
    | .obj fs =>
      let t := dictGetD fs "type" JValue.null
      if jEqStr t "NO_TOOL" || jEqStr t "CLARIFICATION" then fs
      else dictSet fs "type" (.str "TOOL")
    | _ => default_classification

/-- Outcome of the planning exchange in generate_task_list: the backend call
raised, or the response text with the two parse attempts the source makes:
`whole` is json.loads of the full text (none = JSONDecodeError), `fenced`
is the regex search for a json code fence (none = no match) together with
json.loads of its interior (none = JSONDecodeError, caught by the outer
except). -/
inductive PlanBackend : Type
  | err : PlanBackend
  | resp (whole : Option JValue) (fenced : Option (Option JValue)) : PlanBackend

/-- LLMInterface.generate_task_list: whole-text parse if it yields a list,
else fenced-block parse if it yields a list, else the empty list; every
failure (backend error, both parses failing or yielding non-lists) returns
the empty list, never raises. -/
def generate_task_list : PlanBackend → List JValue
  | .err => []
  | .resp whole fenced =>
    match whole with
    | some (.arr xs) => xs
    | _ =>
      match fenced with
      | some (some (.arr xs)) => xs
      | _ => []

/-- Outcome of the interpretation exchange in interpret_results. -/
inductive InterpretBackend : Type
  | err (msg : String) : InterpretBackend
  | resp (s : String) : InterpretBackend

/-- One recorded element of the results list built by MCPAgent._execute_tasks. -/
structure TaskResult where
  tool : JValue
  description : JValue
  result : PyStr
  success : Bool

/-- LLMInterface.interpret_results: the backend text (sanitized by _call_llm
via safe_str) on success, the apology string carrying the error message on
failure; always returns a string. The results list only feeds the prompt. -/
def interpret_results (backend : InterpretBackend) (_results : List TaskResult) : String :=
  match backend with
  | .resp s => safe_str_s s
  | .err e => "実行は完了しましたが、結果の解釈中にエラーが発生しました: " ++ e

/-! ### Orchestration engine (mcp_agent.py) -/

/-- MCPAgent mutable state: the conversation history plus the connection
manager it owns. -/
structure AgentState where
  history : List Turn
  cm : CMState

/-- The per-turn oracle: outcomes of this turn's external exchanges. The
transport outcome is indexed by the number of call_tool calls already made
in the turn. -/
structure TurnOracle where
  classify : ClassifyBackend
  plan : PlanBackend
  transport : Nat → Except String ToolItems
  interpret : InterpretBackend

/-- What one process_request call produced: the returned value (or the
exception that escaped), the conversation history as mutated in place, and
how many tool invocations (call_tool calls) the turn performed. -/
structure TurnOutcome where
  result : Except PyErr JValue
  history : List Turn
  invocations : Nat

/-- The loop body sequence of MCPAgent._execute_tasks. For each task:
read tool/params/description (task.get raises AttributeError on a non-dict
task, outside the try block, aborting the whole call), then call_tool inside
try/except: a success appends a sanitized success record, any exception
appends a failure record with the error message, and the loop continues.
Exactly one call_tool call is made per task — the configured retry strategy
is never consulted. Returns the results (or the escaped exception) and the
number of call_tool calls made. -/
def execute_tasks_go (cm : CMState) (transport : Nat → Except String ToolItems) :
    List JValue → List TaskResult → Nat → (Except PyErr (List TaskResult)) × Nat
  | [], acc, n => (.ok acc, n)
  | task :: rest, acc, n =>
    match task with
    | .obj fs =>
      let tool := dictGetD fs "tool" (.str "")
      let params := dictGetD fs "params" (.obj [])
      let description := dictGetD fs "description" tool
      match call_tool cm tool params (transport n) with
      | (.ok items, _) =>
        let result_text := safe_str ((items.filterMap id).flatten)
        execute_tasks_go cm transport rest
          (acc ++ [{ tool := tool, description := description,
                     result := result_text, success := true }]) (n + 1)
      | (.error e, _) =>
        let error_msg := safe_str_s (pyErrMsg e)
        execute_tasks_go cm transport rest
          (acc ++ [{ tool := tool, description := description,
                     result := strToPy ("エラー: " ++ error_msg), success := false }]) (n + 1)
    | _ => (.error (.attributeError "object has no attribute get: tool"), n)

/-- MCPAgent._execute_tasks. -/
def execute_tasks (cm : CMState) (task_list : List JValue)
    (transport : Nat → Except String ToolItems) :
    (Except PyErr (List TaskResult)) × Nat :=
  execute_tasks_go cm transport task_list [] 0

/-- MCPAgent.process_request. Follows the source line by line: append the
user turn, build context and the tool catalog (either can raise for exotic
stored values), classify, branch on the verdict type, plan, execute, and
interpret. The config argument mirrors self.config: the source never
consults it anywhere in this pipeline. -/
def process_request (cfg : Config) (st : AgentState) (user_query : String)
    (o : TurnOracle) : TurnOutcome :=
  let _ := cfg
  let hist1 := st.history ++ [{ role := .user, content := .str user_query }]
  match get_recent_context hist1 with
  | .error e => { result := .error e, history := hist1, invocations := 0 }
  | .ok _context =>
    match format_tools_for_llm st.cm.tools_info with
    | .error e => { result := .error e, history := hist1, invocations := 0 }
    | .ok _tools_info =>
      let execution_type := determine_execution_type o.classify
      let exec_type := dictGetD execution_type "type" (.str "TOOL")
      if jEqStr exec_type "NO_TOOL" then
        let response := dictGetD execution_type "response" (.str "")
        { result := .ok response,
          history := hist1 ++ [{ role := .assistant, content := response }],
          invocations := 0 }
      else if jEqStr exec_type "CLARIFICATION" then
        let clarification := dictGetD execution_type "clarification" (.obj [])
        match pyGet clarification "question"
            (dictGetD execution_type "response" (.str "追加情報が必要です")) with
        | .error e => { result := .error e, history := hist1, invocations := 0 }
        | .ok question =>
          { result := .ok question,
            history := hist1 ++ [{ role := .assistant, content := question }],
            invocations := 0 }
      else
        let task_list := generate_task_list o.plan
        if task_list.isEmpty then
          let response := JValue.str "タスクを生成できませんでした。別の方法でお手伝いしましょうか？"
          { result := .ok response,
            history := hist1 ++ [{ role := .assistant, content := response }],
            invocations := 0 }
        else
          match execute_tasks st.cm task_list o.transport with
          | (.error e, n) => { result := .error e, history := hist1, invocations := n }
          | (.ok results, n) =>
            let response := JValue.str (interpret_results o.interpret results)
            { result := .ok response,
              history := hist1 ++ [{ role := .assistant, content := response }],
              invocations := n }

/-- A sequence of turns on one agent: each turn runs process_request and
keeps the mutated history (the registry and clients are only changed by
connection-manager operations, which the turn never performs). -/
def run_turns (cfg : Config) (st : AgentState) :
    List (String × TurnOracle) → AgentState
  | [] => st
  | (q, o) :: rest =>
    run_turns cfg { st with history := (process_request cfg st q o).history } rest

/-! ## Helper lemmas -/

theorem jEqStr_eq (v : JValue) (s : String) : jEqStr v s = true ↔ v = .str s := by
  cases v <;> simp [jEqStr]

theorem dictGetD_dictSet_same (d : PyDict) (k : String) (v dflt : JValue) :
    dictGetD (dictSet d k v) k dflt = v := by
  induction d with
  | nil => simp [dictSet, dictGetD, dictLookup]
  | cons hd tl ih =>
    obtain ⟨k', v'⟩ := hd
    by_cases h : k' = k
    · subst h
      simp [dictSet, dictGetD, dictLookup]
    · simp only [dictSet, if_neg h]
      simpa [dictGetD, dictLookup, h] using ih

/-! ## Claim theorems -/

/-- C6: classification is total with a safe default. For every backend
outcome the verdict dict has discriminant NO_TOOL, CLARIFICATION or TOOL;
on a backend error (and on unparseable output) the verdict is the fixed
default dict, whose type is TOOL and whose reason field annotates the
failure; when the payload is not a dict, or its discriminant is neither of
the two short-circuit kinds, the discriminant is TOOL. The operation is a
total function of the backend outcome, so it never raises. -/
theorem classification_total_default_tool (b : ClassifyBackend) :
    (jEqStr (dictGetD (determine_execution_type b) "type" JValue.null) "NO_TOOL" = true ∨
     jEqStr (dictGetD (determine_execution_type b) "type" JValue.null) "CLARIFICATION" = true ∨
     dictGetD (determine_execution_type b) "type" JValue.null = .str "TOOL") ∧
    (∀ msg, b = .err msg → determine_execution_type b = default_classification ∧
      dictGetD (determine_execution_type b) "reason" JValue.null =
        .str "判定エラーによりデフォルト選択") ∧
    (b = .parseFail → determine_execution_type b = default_classification) ∧
    (∀ v, b = .value v → (∀ fs, v ≠ .obj fs) →
      determine_execution_type b = default_classification) ∧
    (∀ fs, b = .value (.obj fs) →
      jEqStr (dictGetD fs "type" JValue.null) "NO_TOOL" = false →
      jEqStr (dictGetD fs "type" JValue.null) "CLARIFICATION" = false →
      dictGetD (determine_execution_type b) "type" JValue.null = .str "TOOL") := by
  cases b with
  | err msg =>
    refine ⟨Or.inr (Or.inr rfl), ?_, ?_, ?_, ?_⟩
    · exact fun m hm => ⟨rfl, rfl⟩
    · exact fun h => ClassifyBackend.noConfusion h
    · exact fun v hv => ClassifyBackend.noConfusion hv
    · exact fun fs hfs => ClassifyBackend.noConfusion hfs
  | parseFail =>
    refine ⟨Or.inr (Or.inr rfl), ?_, ?_, ?_, ?_⟩
    · exact fun m hm => ClassifyBackend.noConfusion hm
    · exact fun _ => rfl
    · exact fun v hv => ClassifyBackend.noConfusion hv
    · exact fun fs hfs => ClassifyBackend.noConfusion hfs
  | value v =>
    cases v with
    | obj fs =>
      refine ⟨?_, ?_, ?_, ?_, ?_⟩
      · by_cases h1 : jEqStr (dictGetD fs "type" JValue.null) "NO_TOOL" = true
        · left
          simp [determine_execution_type, h1]
        · by_cases h2 : jEqStr (dictGetD fs "type" JValue.null) "CLARIFICATION" = true
          · right; left
            simp only [Bool.not_eq_true] at h1
            simp [determine_execution_type, h1, h2]
          · right; right
            simp only [Bool.not_eq_true] at h1 h2
            simp [determine_execution_type, h1, h2, dictGetD_dictSet_same]
      · exact fun m hm => ClassifyBackend.noConfusion hm
      · exact fun h => ClassifyBackend.noConfusion h
      · intro v hv hne
        injection hv with hv'
        subst hv'
        exact absurd rfl (hne fs)
      · intro fs' hfs h1 h2
        injection hfs with hv'
        injection hv' with hfs'
        subst hfs'
        simp [determine_execution_type, h1, h2, dictGetD_dictSet_same]
    | null =>
      refine ⟨Or.inr (Or.inr rfl), fun m hm => ClassifyBackend.noConfusion hm,
        fun h => ClassifyBackend.noConfusion h, fun v' hv hne => ?_, fun fs hfs => ?_⟩
      · cases hv
        rfl
      · cases hfs
    | bool bb =>
      refine ⟨Or.inr (Or.inr rfl), fun m hm => ClassifyBackend.noConfusion hm,
        fun h => ClassifyBackend.noConfusion h, fun v' hv hne => ?_, fun fs hfs => ?_⟩
      · cases hv
        rfl
      · cases hfs
    | num q =>
      refine ⟨Or.inr (Or.inr rfl), fun m hm => ClassifyBackend.noConfusion hm,
        fun h => ClassifyBackend.noConfusion h, fun v' hv hne => ?_, fun fs hfs => ?_⟩
      · cases hv
        rfl
      · cases hfs
    | str s =>
      refine ⟨Or.inr (Or.inr rfl), fun m hm => ClassifyBackend.noConfusion hm,
        fun h => ClassifyBackend.noConfusion h, fun v' hv hne => ?_, fun fs hfs => ?_⟩
      · cases hv
        rfl
      · cases hfs
    | arr xs =>
      refine ⟨Or.inr (Or.inr rfl), fun m hm => ClassifyBackend.noConfusion hm,
        fun h => ClassifyBackend.noConfusion h, fun v' hv hne => ?_, fun fs hfs => ?_⟩
      · cases hv
        rfl
      · cases hfs

/-- Witness for C6 at a concrete backend error: the verdict is the default
dict, i.e. ToolRequired with the failure annotation. -/
theorem classification_total_default_tool_witness :
    determine_execution_type (.err "backend down") = default_classification ∧
    dictGetD (determine_execution_type (.err "backend down")) "reason" JValue.null =
      .str "判定エラーによりデフォルト選択" :=
  (classification_total_default_tool (.err "backend down")).2.1 "backend down" rfl

/-- C10: configuration loading never fails on an absent file: whatever the
reader oracle would have produced, a non-existing path loads the built-in
default Config without raising, and a load error implies the file existed. -/
theorem config_load_absent_default (fileExists : Bool) (readParse : Except String JValue) :
    (fileExists = false → ConfigManager.load fileExists readParse = .ok Config.default) ∧
    (∀ e, ConfigManager.load fileExists readParse = .error e → fileExists = true) := by
  constructor
  · intro h
    subst h
    rfl
  · intro e h
    cases fileExists
    · simp [ConfigManager.load, Config.default] at h
    · rfl

/-- Witness for C10: an absent file together with an unreadable-content
oracle still loads the default configuration. -/
theorem config_load_absent_default_witness :
    ConfigManager.load false (.error "unreadable") = .ok Config.default :=
  (config_load_absent_default false (.error "unreadable")).1 rfl

theorem safe_str_no_surrogate (t : PyStr) : ∀ c ∈ safe_str t, isSurrogate c = false := by
  intro c hc
  simp only [safe_str, List.mem_map] at hc
  obtain ⟨a, -, rfl⟩ := hc
  by_cases h : isSurrogate a
  · simp only [h, Bool.not_true, Bool.false_eq_true, if_false]
    decide
  · simp only [Bool.not_eq_true] at h
    simp [h]

theorem safe_str_get (t : PyStr) (i c : Nat) (h : t[i]? = some c) :
    (safe_str t)[i]? = some (if isSurrogate c then 0x3F else c) := by
  simp only [safe_str, List.getElem?_map, h, Option.map_some']
  by_cases hs : isSurrogate c <;> simp [hs]

theorem call_tool_ok_inv (cm : CMState) (tool_name args : JValue)
    (tr : Except String ToolItems) (res : ToolItems) (invoked : Bool)
    (h : call_tool cm tool_name args tr = (.ok res, invoked)) :
    ∃ items, tr = .ok items ∧ res = items.map (Option.map safe_str) := by
  cases tool_name with
  | null => simp [call_tool] at h
  | bool b => simp [call_tool] at h
  | num q => simp [call_tool] at h
  | arr xs => simp [call_tool] at h
  | obj fs => simp [call_tool] at h
  | str s =>
    simp only [call_tool] at h
    cases hf : toolLookup cm.tools_info s with
    | none =>
      rw [hf] at h
      simp at h
    | some entry =>
      rw [hf] at h
      dsimp only at h
      by_cases hm : entry.server ∈ cm.clients
      · rw [if_pos hm] at h
        cases tr with
        | error e => simp at h
        | ok items =>
          simp only [Prod.mk.injEq, Except.ok.injEq] at h
          exact ⟨items, rfl, h.1.symm⟩
      · rw [if_neg hm] at h
        simp at h

/-- C9: every tool output surfaced by ConnectionManager.call_tool (invoke)
is the safe_str image of the transport's text: it contains no UTF-16
surrogate code unit, each surrogate of the input is replaced by the
placeholder U+003F, and every non-surrogate code unit is preserved
unchanged at its position. -/
theorem invoke_output_sanitized (cm : CMState) (tool_name args : JValue)
    (tr : Except String ToolItems) (res : ToolItems) (invoked : Bool)
    (h : call_tool cm tool_name args tr = (.ok res, invoked)) :
    (∃ items, tr = .ok items ∧ res = items.map (Option.map safe_str)) ∧
    (∀ o ∈ res, ∀ s, o = some s → ∀ c ∈ s, isSurrogate c = false) ∧
    (∀ (t : PyStr) (i c : Nat), t[i]? = some c →
      (safe_str t)[i]? = some (if isSurrogate c then 0x3F else c)) := by
  refine ⟨call_tool_ok_inv cm tool_name args tr res invoked h, ?_, ?_⟩
  · obtain ⟨items, -, rfl⟩ := call_tool_ok_inv cm tool_name args tr res invoked h
    intro o ho s hs c hc
    simp only [List.mem_map] at ho
    obtain ⟨o', -, rfl⟩ := ho
    cases o' with
    | none => cases hs
    | some t =>
      simp only [Option.map_some', Option.some.injEq] at hs
      subst hs
      exact safe_str_no_surrogate t c hc
  · exact fun t i c hic => safe_str_get t i c hic

/-- A one-server, one-tool connection-manager state used by the concrete
evaluations below. -/
def cmDemo : CMState :=
  { clients := ["s"],
    tools_info := [("t", { server := "s", schema := .obj [], description := "demo" })],
    initialized := true }

/-- Witness for C9: a transport answer whose text holds the lone surrogate
U+D800 followed by U+0034 is surfaced as U+003F, U+0034; the placeholder is
not a surrogate (derived through the theorem itself). -/
theorem invoke_output_sanitized_witness :
    isSurrogate 0x3F = false ∧
    call_tool cmDemo (.str "t") (.obj []) (.ok [some [0xD800, 0x34]]) =
      (.ok [some [0x3F, 0x34]], true) := by
  have hcall : call_tool cmDemo (.str "t") (.obj []) (.ok [some [0xD800, 0x34]]) =
      (.ok [some [0x3F, 0x34]], true) := rfl
  have h := invoke_output_sanitized cmDemo (.str "t") (.obj [])
    (.ok [some [0xD800, 0x34]]) [some [0x3F, 0x34]] true hcall
  exact ⟨h.2.1 (some [0x3F, 0x34]) (by simp) [0x3F, 0x34] rfl 0x3F (by simp), hcall⟩

/-- The initial agent state of the concrete runs: empty history, no
connected server, empty registry. -/
def st0 : AgentState :=
  { history := [], cm := { clients := [], tools_info := [], initialized := true } }

/-- A two-task plan: both tasks name the registered tool t; the second also
carries params and a description. -/
def tasksDemo : List JValue :=
  [.obj [("tool", .str "t")],
   .obj [("tool", .str "t"), ("params", .obj []), ("description", .str "second")]]

/-- A transport whose first call always fails and whose later calls
succeed with the text 4. -/
def failingThenOkTransport : Nat → Except String ToolItems :=
  fun n => if n = 0 then .error "boom" else .ok [some (strToPy "4")]

/-- C1 (code bug): the declared retry policy is not wired into task
execution. Under the built-in configuration (retry_strategy max_retries 3,
progressive_temperature true, initial 0.1, increment 0.2) a task whose tool
invocation fails is attempted exactly once — one call_tool call, no
re-planning at raised temperatures — its failure is recorded, and the batch
continues to the next task unconditionally (the fallback_enabled flag is
never read): two tasks produce exactly two invocations. -/
theorem retry_policy_not_wired :
    Config.default.execution.retry_strategy.max_retries = JValue.num 3 ∧
    Config.default.execution.retry_strategy.progressive_temperature = JValue.bool true ∧
    Config.default.execution.retry_strategy.initial_temperature = JValue.num (1/10) ∧
    Config.default.execution.retry_strategy.temperature_increment = JValue.num (1/5) ∧
    execute_tasks cmDemo tasksDemo failingThenOkTransport =
      (.ok [{ tool := .str "t", description := .str "t",
              result := strToPy "エラー: ツール実行エラー (t): boom", success := false },
            { tool := .str "t", description := .str "second",
              result := strToPy "4", success := true }], 2) :=
  ⟨rfl, rfl, rfl, rfl, rfl⟩

/-- The oracle of a turn whose classification demands a tool and whose
planner output is the JSON list [1] — a valid list whose element is not a
dict. -/
def oracleBadTask : TurnOracle :=
  { classify := .value (.obj [("type", .str "TOOL")]),
    plan := .resp (some (.arr [.num 1])) none,
    transport := fun _ => .error "down",
    interpret := .err "down" }

/-- C2 (code bug): process_request does not return a string for every value
the planner can return as a task list. When the planner yields the list [1],
the attribute access task.get in _execute_tasks — which sits outside the
per-task try block — raises AttributeError, and the exception escapes
process_request to its caller. -/
theorem process_request_raises_on_nondict_task :
    (process_request Config.default st0 "calc" oracleBadTask).result =
      .error (.attributeError "object has no attribute get: tool") ∧
    (process_request Config.default st0 "calc" oracleBadTask).invocations = 0 :=
  ⟨rfl, rfl⟩

/-- The oracle of a turn answered directly (NO_TOOL with response text). -/
def oracleNoToolOk : TurnOracle :=
  { classify := .value (.obj [("type", .str "NO_TOOL"), ("response", .str "ok")]),
    plan := .err,
    transport := fun _ => .error "down",
    interpret := .err "down" }

set_option maxRecDepth 100000 in
/-- C3 (code bug): the conversation store is never trimmed to max_history.
With the built-in bound of 50, twenty-six NO_TOOL turns append two entries
each and leave 52 entries in the store — the bound is exceeded and no
eviction happens. -/
theorem history_exceeds_max_history :
    Config.default.conversation.max_history = JValue.num 50 ∧
    (run_turns Config.default st0
      (List.replicate 26 ("hi", oracleNoToolOk))).history.length = 52 :=
  ⟨rfl, rfl⟩

/-- An eleven-turn history of one-character user entries. -/
def hist11 : List Turn :=
  ["a", "b", "c", "d", "e", "f", "g", "h", "i", "j", "k"].map
    (fun s => { role := .user, content := .str s })

/-- A single turn whose content has 200 code units. -/
def histLong : List Turn :=
  [{ role := .user, content := .str (String.mk (List.replicate 200 'x')) }]

theorem toolLookup_toolSet (d : List (String × ToolEntry)) (k name : String) (v : ToolEntry) :
    toolLookup (toolSet d k v) name = if k = name then some v else toolLookup d name := by
  induction d with
  | nil => simp [toolSet, toolLookup]
  | cons hd tl ih =>
    obtain ⟨k', v'⟩ := hd
    by_cases h : k' = k
    · subst h
      by_cases h2 : k' = name <;> simp [toolSet, toolLookup, h2]
    · simp only [toolSet, if_neg h]
      by_cases h2 : k' = name
      · subst h2
        simp [toolLookup, Ne.symm h]
      · simp [toolLookup, h2, ih]

theorem toolLookup_register_fold (server : String) (tools : List ToolDesc)
    (acc : List (String × ToolEntry)) (name : String) (e : ToolEntry)
    (h : toolLookup (tools.foldl (register_tool server) acc) name = some e) :
    toolLookup acc name = some e ∨ e.server = server := by
  induction tools generalizing acc with
  | nil => exact Or.inl h
  | cons t ts ih =>
    rcases ih (register_tool server acc t) h with h' | h'
    · rw [register_tool, toolLookup_toolSet] at h'
      by_cases hn : t.name = name
      · rw [if_pos hn] at h'
        right
        cases h'
        rfl
      · rw [if_neg hn] at h'
        exact Or.inl h'
    · exact Or.inr h'

theorem toolLookup_collect (clients : List String)
    (listTools : String → Except String (List ToolDesc))
    (acc : List (String × ToolEntry)) (name : String) (e : ToolEntry)
    (h : toolLookup (collect_tools_info clients listTools acc) name = some e) :
    toolLookup acc name = some e ∨ e.server ∈ clients := by
  induction clients generalizing acc with
  | nil => exact Or.inl h
  | cons c cs ih =>
    simp only [collect_tools_info, List.foldl_cons] at h
    rcases ih _ (by simpa [collect_tools_info] using h) with h' | h'
    · cases hlt : listTools c with
      | error msg =>
        rw [hlt] at h'
        exact Or.inl h'
      | ok tools =>
        rw [hlt] at h'
        dsimp only at h'
        rcases toolLookup_register_fold c tools acc name e h' with h'' | h''
        · exact Or.inl h''
        · exact Or.inr (by simp [h''])
    · exact Or.inr (List.mem_cons_of_mem c h')

/-- C4 counterexample: a registry holding tool t owned by server s, after
ConnectionManager.close drops every connection (clients becomes empty), still
resolves t — the entry owned by the dropped connection was not removed. -/
theorem tool_resolvable_after_close_cex :
    get_tool_info (cmDemo.close (fun _ => .ok ())) "t" =
      some { server := "s", schema := .obj [], description := "demo" } ∧
    (cmDemo.close (fun _ => .ok ())).clients = [] :=
  ⟨rfl, rfl⟩

/-- C4 amended: tool entries are created during discovery on behalf of a
connected client (every entry resolvable after _collect_tools_info was
already present or is owned by one of the queried clients), but dropping
connections does not invalidate them: close leaves the registry untouched,
and a tool resolved after close fails fast at call_tool with the
not-connected error, without any transport activity. -/
theorem registry_entries_after_close (cm : CMState)
    (closeOutcome : String → Except String Unit) (name : String) (args : JValue)
    (tr : Except String ToolItems) :
    ((cm.close closeOutcome).tools_info = cm.tools_info) ∧
    (∀ e, get_tool_info (cm.close closeOutcome) name = some e →
      call_tool (cm.close closeOutcome) (.str name) args tr =
        (.error (.valueError ("サーバー " ++ e.server ++ " に接続されていません")), false)) ∧
    (∀ (clients : List String) (listTools : String → Except String (List ToolDesc))
        (acc : List (String × ToolEntry)) (e : ToolEntry),
      toolLookup (collect_tools_info clients listTools acc) name = some e →
      toolLookup acc name = some e ∨ e.server ∈ clients) := by
  refine ⟨rfl, ?_, ?_⟩
  · intro e he
    simp only [get_tool_info, CMState.close] at he
    simp [call_tool, CMState.close, he]
  · exact fun clients lt acc e h => toolLookup_collect clients lt acc name e h

/-- Witness for the amended C4: after closing the demo manager, invoking its
registered tool fails fast with the not-connected error and no transport
call. -/
theorem registry_entries_after_close_witness :
    call_tool (cmDemo.close (fun _ => .ok ())) (.str "t") (.obj []) (.ok []) =
      (.error (.valueError ("サーバー " ++ "s" ++ " に接続されていません")), false) :=
  (registry_entries_after_close cmDemo (fun _ => .ok ()) "t" (.obj []) (.ok [])).2.1
    { server := "s", schema := .obj [], description := "demo" } rfl

set_option maxRecDepth 100000 in
/-- C5 (code bug): the context builder keeps the last 10 turns — the
hard-coded default of _get_recent_context — even when the configured
context_limit is 3: an 11-turn history yields 10 context lines, not 3.
The truncation half of the claim holds: a 200-unit entry is cut to its
first 150 units with the marker appended. -/
theorem context_ignores_context_limit :
    ({ Config.default with
        conversation := { context_limit := .num 3, max_history := .num 50 } } :
      Config).conversation.context_limit = JValue.num 3 ∧
    get_recent_context hist11 =
      .ok (String.intercalate "\n"
        ["User: b", "User: c", "User: d", "User: e", "User: f",
         "User: g", "User: h", "User: i", "User: j", "User: k"]) ∧
    (["User: b", "User: c", "User: d", "User: e", "User: f",
      "User: g", "User: h", "User: i", "User: j", "User: k"].length = 10) ∧
    get_recent_context histLong =
      .ok ("User: " ++ String.mk (List.replicate 150 'x') ++ "...") :=
  ⟨rfl, rfl, rfl, rfl⟩


/-- The oracle of a turn whose verdict is CLARIFICATION with a response
field but no clarification.question. -/
def oracleClarFallback : TurnOracle :=
  { classify := .value (.obj [("type", .str "CLARIFICATION"), ("response", .str "foo")]),
    plan := .err,
    transport := fun _ => .error "down",
    interpret := .err "down" }

/-- C7 counterexample: on a Clarification verdict whose question text is
absent, the turn returns the verdict's response field, not the generic
need-more-information string the claim prescribes. -/
theorem clarification_fallback_cex :
    (process_request Config.default st0 "q" oracleClarFallback).result = .ok (.str "foo") ∧
    "foo" ≠ "追加情報が必要です" ∧
    (process_request Config.default st0 "q" oracleClarFallback).invocations = 0 :=
  ⟨rfl, by decide, rfl⟩

/-- C7 amended: in a turn classified NoTool or Clarification no tool
invocation occurs; the NoTool response is the verdict's response text
(empty-string default), and the Clarification response is the question text
of the verdict's clarification dict, falling back first to the verdict's
response field and only then to the generic need-more-information string. -/
theorem short_circuit_no_invocation (cfg : Config) (st : AgentState) (q : String)
    (o : TurnOracle) (ctx catalog : String)
    (hctx : get_recent_context (st.history ++ [{ role := .user, content := .str q }]) = .ok ctx)
    (hcat : format_tools_for_llm st.cm.tools_info = .ok catalog) :
    (jEqStr (dictGetD (determine_execution_type o.classify) "type" (.str "TOOL")) "NO_TOOL" = true →
      (process_request cfg st q o).invocations = 0 ∧
      (process_request cfg st q o).result =
        .ok (dictGetD (determine_execution_type o.classify) "response" (.str ""))) ∧
    (jEqStr (dictGetD (determine_execution_type o.classify) "type" (.str "TOOL")) "CLARIFICATION" = true →
      (process_request cfg st q o).invocations = 0 ∧
      ∀ fs, dictGetD (determine_execution_type o.classify) "clarification" (.obj []) = .obj fs →
        (process_request cfg st q o).result =
          .ok (dictGetD fs "question"
            (dictGetD (determine_execution_type o.classify) "response" (.str "追加情報が必要です")))) := by
  constructor
  · intro hnt
    simp only [process_request, hctx, hcat, hnt]
    exact ⟨rfl, rfl⟩
  · intro hcl
    have hnt : jEqStr (dictGetD (determine_execution_type o.classify) "type" (.str "TOOL"))
        "NO_TOOL" = false := by
      rw [jEqStr_eq] at hcl
      rw [hcl]
      decide
    constructor
    · rcases hq : pyGet (dictGetD (determine_execution_type o.classify) "clarification" (.obj []))
          "question" (dictGetD (determine_execution_type o.classify) "response"
            (.str "追加情報が必要です")) with e | question
      · simp [process_request, hctx, hcat, hnt, hcl, hq]
      · simp [process_request, hctx, hcat, hnt, hcl, hq]
    · intro fs hfs
      simp [process_request, hctx, hcat, hnt, hcl, hfs, pyGet]

/-- The oracle of a turn whose clarification dict carries a question. -/
def oracleClarQ : TurnOracle :=
  { classify := .value (.obj [("type", .str "CLARIFICATION"),
      ("clarification", .obj [("question", .str "which db?")])]),
    plan := .err,
    transport := fun _ => .error "down",
    interpret := .err "down" }

/-- Witness for the amended C7 at a concrete clarification turn: zero
invocations, and the response is the question text. -/
theorem short_circuit_no_invocation_witness :
    (process_request Config.default st0 "vague" oracleClarQ).invocations = 0 ∧
    (process_request Config.default st0 "vague" oracleClarQ).result = .ok (.str "which db?") := by
  have h := (short_circuit_no_invocation Config.default st0 "vague" oracleClarQ
      "User: vague" "" rfl rfl).2 rfl
  exact ⟨h.1, h.2 [("question", .str "which db?")] rfl⟩

/-- C8: when classification demands tools and planning yields the empty task
list, the turn's response is the fixed could-not-produce-a-task-list message
and no tool invocation occurs. -/
theorem empty_plan_fixed_message (cfg : Config) (st : AgentState) (q : String)
    (o : TurnOracle) (ctx catalog : String)
    (hctx : get_recent_context (st.history ++ [{ role := .user, content := .str q }]) = .ok ctx)
    (hcat : format_tools_for_llm st.cm.tools_info = .ok catalog)
    (htool : dictGetD (determine_execution_type o.classify) "type" (.str "TOOL") = .str "TOOL")
    (hplan : generate_task_list o.plan = []) :
    (process_request cfg st q o).result =
      .ok (.str "タスクを生成できませんでした。別の方法でお手伝いしましょうか？") ∧
    (process_request cfg st q o).invocations = 0 := by
  have h1 : jEqStr (dictGetD (determine_execution_type o.classify) "type" (.str "TOOL"))
      "NO_TOOL" = false := by
    rw [htool]
    decide
  have h2 : jEqStr (dictGetD (determine_execution_type o.classify) "type" (.str "TOOL"))
      "CLARIFICATION" = false := by
    rw [htool]
    decide
  simp only [process_request, hctx, hcat, h1, h2, hplan]
  exact ⟨rfl, rfl⟩

/-- The oracle of a turn that requires tools but whose planner response
parses to nothing (no whole-text JSON, no fenced block). -/
def oracleEmptyPlan : TurnOracle :=
  { classify := .value (.obj [("type", .str "TOOL")]),
    plan := .resp none none,
    transport := fun _ => .error "down",
    interpret := .err "down" }

/-- Witness for C8 at a concrete turn with an empty plan. -/
theorem empty_plan_fixed_message_witness :
    (process_request Config.default st0 "do it" oracleEmptyPlan).result =
      .ok (.str "タスクを生成できませんでした。別の方法でお手伝いしましょうか？") ∧
    (process_request Config.default st0 "do it" oracleEmptyPlan).invocations = 0 :=
  empty_plan_fixed_message Config.default st0 "do it" oracleEmptyPlan
    "User: do it" "" rfl rfl rfl rfl
